import Mathlib

/-!
Verification of the S1ngleID document field-extraction and validation
pipeline against its specification.

The development shallowly embeds the TypeScript sources:

* the server-side date-of-birth extractor
  (`lib/server/dobExtractor.ts`: `extractDobFromOcrText`,
  `extractLabeledDob`, `extractBirthYearDate`, `isValidDate`,
  `isBirthPlausible`, `calculateAge`);
* the `/api/verify/start` fast-path re-validation gate;
* the client-side parsers in `lib/ocr.ts` (`extractBirthDate`,
  `parseOntarioDlNumber`);
* both generations of the policy evaluator `validateIDData`
  (`lib/validation.ts`);
* the region cropper pixel-bounds computation of
  `lib/opencvPreprocess.ts` (`cropDataUrlRegionToPng`).

JavaScript `Date` semantics are modelled for the only string shape the
code ever constructs, `YYYY-MM-DD` (four-two-two digits): V8 parses such
a string as a UTC civil date when the month is in 1..12 and the day in
1..31, silently rolling over days past the end of the month (the source
itself documents this: "Feb 31 -> Mar 3"), and yields an Invalid Date
otherwise.  Field reads (`getFullYear` & co.) are modelled as returning
that civil date, i.e. the process runs with a UTC clock, which is how
the server is deployed.  "Now" is made explicit as a `CivilDate`
argument everywhere the source calls `new Date()`.
-/

/-- A civil (proleptic Gregorian) calendar date, as read back from a
JavaScript `Date` via `getFullYear` / `getMonth`+1 / `getDate`. -/
structure CivilDate where
  year : Int
  month : Int
  day : Int
deriving DecidableEq

/-- Gregorian leap-year rule, as implemented by JavaScript `Date`. -/
def isLeapYear (y : Int) : Bool :=
  (y % 4 == 0 && y % 100 != 0) || y % 400 == 0

/-- Number of days of month `m` (1-based) in year `y`. -/
def daysInMonth (y m : Int) : Int :=
  if m = 2 then (if isLeapYear y then 29 else 28)
  else if m = 4 || m = 6 || m = 9 || m = 11 then 30
  else 31

/-- JavaScript `Date` day-of-month rollover: a nominally out-of-range
day (at most 31) spills into the following month, e.g. 1990-02-31
becomes 1990-03-03.  Only called with `1 ≤ m ≤ 12` and `1 ≤ d ≤ 31`,
so at most one month of carry can occur and month 12 (31 days) never
carries into the next year in a way that matters. -/
def rolloverDate (y m d : Int) : CivilDate :=
  if d ≤ daysInMonth y m then ⟨y, m, d⟩
  else if m = 12 then ⟨y + 1, 1, d - 31⟩
  else ⟨y, m + 1, d - daysInMonth y m⟩

/-- Parse the exact textual shape `\d{4}-\d{2}-\d{2}` into its numeric
year, month and day components; `none` for every other string. -/
def parseShape (s : String) : Option (Int × Int × Int) :=
  match s.toList with
  | [a, b, c, d, s1, e, f, s2, g, h] =>
    if a.isDigit && b.isDigit && c.isDigit && d.isDigit && s1 = '-' &&
       e.isDigit && f.isDigit && s2 = '-' && g.isDigit && h.isDigit then
      some (((a.toNat : Int) - 48) * 1000 + ((b.toNat : Int) - 48) * 100 +
              ((c.toNat : Int) - 48) * 10 + ((d.toNat : Int) - 48),
            ((e.toNat : Int) - 48) * 10 + ((f.toNat : Int) - 48),
            ((g.toNat : Int) - 48) * 10 + ((h.toNat : Int) - 48))
    else none
  | _ => none

/-- Model of `new Date(s)` for the `YYYY-MM-DD` strings the pipeline
builds: a civil date (with day rollover) when within the ISO grammar
ranges, `none` (Invalid Date) otherwise. -/
def jsDateParse (s : String) : Option CivilDate :=
  match parseShape s with
  | some (y, m, d) =>
    if 1 ≤ m ∧ m ≤ 12 ∧ 1 ≤ d ∧ d ≤ 31 then some (rolloverDate y m d) else none
  | none => none

/-- Strict lexicographic order on civil dates (the order of the
underlying JavaScript time values). -/
def civilLt (a b : CivilDate) : Bool :=
  decide (a.year < b.year ∨ (a.year = b.year ∧
    (a.month < b.month ∨ (a.month = b.month ∧ a.day < b.day))))

/-- Non-strict lexicographic order on civil dates. -/
def civilLe (a b : CivilDate) : Bool :=
  decide (a.year < b.year ∨ (a.year = b.year ∧
    (a.month < b.month ∨ (a.month = b.month ∧ a.day ≤ b.day))))

/-- The calendar day immediately before `d` (for stating the
anniversary property of the age computation). -/
def prevDate (d : CivilDate) : CivilDate :=
  if 1 < d.day then ⟨d.year, d.month, d.day - 1⟩
  else if 1 < d.month then ⟨d.year, d.month - 1, daysInMonth d.year (d.month - 1)⟩
  else ⟨d.year - 1, 12, 31⟩

namespace DobExtractor

/-- Age in whole years of a person born on `b`, evaluated on `t`:
year difference, minus one when the birthday has not yet occurred in
`t`'s year.  Mirrors the `monthDiff` logic of `calculateAge` in
`dobExtractor.ts`. -/
def ageCivil (b t : CivilDate) : Int :=
  t.year - b.year -
    (if t.month < b.month ∨ (t.month = b.month ∧ t.day < b.day) then 1 else 0)

/-- `calculateAge` of `dobExtractor.ts`: parse the ISO string with
`new Date`; `null` when invalid, otherwise the whole-year age at
evaluation date `t`. -/
def calculateAge (birthDate : String) (t : CivilDate) : Option Int :=
  (jsDateParse birthDate).map (fun b => ageCivil b t)

/-- `isValidDate` of `dobExtractor.ts`: the string parses to a real
`Date` and reading the date back yields exactly the textual
components (rejects rolled-over dates such as Feb 31). -/
def isValidDate (isoDate : String) : Bool :=
  match parseShape isoDate, jsDateParse isoDate with
  | some (y, m, d), some c => decide (c = ⟨y, m, d⟩)
  | _, _ => false

/-- `isBirthPlausible` of `dobExtractor.ts`: the implied age lies in
14..100. -/
def isBirthPlausible (isoDate : String) (t : CivilDate) : Bool :=
  match calculateAge isoDate t with
  | some a => decide (14 ≤ a ∧ a ≤ 100)
  | none => false

end DobExtractor

/-- Left-pad a (0..99) numeric capture back to its two source digits,
as the template literals in the source do. -/
def pad2 (n : Int) : String :=
  if n < 10 then "0" ++ toString n else toString n

/-- Render a four-digit year capture back to its source digits. -/
def pad4 (n : Int) : String :=
  if n < 10 then "000" ++ toString n
  else if n < 100 then "00" ++ toString n
  else if n < 1000 then "0" ++ toString n
  else toString n

/-- The `${year}-${month}-${day}` template of the sources. -/
def toIso (y m d : Int) : String :=
  pad4 y ++ "-" ++ pad2 m ++ "-" ++ pad2 d

theorem parseShape_empty : parseShape "" = none := rfl

theorem jsDateParse_examples :
    jsDateParse "1990-05-14" = some ⟨1990, 5, 14⟩ ∧
    jsDateParse "2024-02-30" = some ⟨2024, 3, 1⟩ ∧
    jsDateParse "1990-13-01" = none := by
  refine ⟨?_, ?_, ?_⟩ <;> decide

/-! ## Regular-expression scanning primitives

The date regexes of the sources are embedded as explicit backtracking
matchers over `List Char`.  A matcher is tried at every position of the
text from the left, exactly as the JavaScript engine advances the
starting position on failure, so `scanFirst` reproduces
`String.prototype.match` / one-shot `exec` for these patterns. -/

/-- Numeric value of a decimal digit character. -/
def dval (c : Char) : Int := (c.toNat : Int) - 48

/-- JavaScript `\w` (word character), used for `\b` boundaries. -/
def isWordChar (c : Char) : Bool := c.isAlphanum || c = '_'

/-- JavaScript `\s` for the whitespace the OCR text can contain. -/
def isSpaceChar (c : Char) : Bool := c = ' ' || c = '\t' || c = '\n' || c = '\r'

/-- The `[\/\-.]` date-separator class of all the date regexes. -/
def isDateSep (c : Char) : Bool := c = '/' || c = '-' || c = '.'

/-- A `\b` boundary holds before a digit iff the preceding character
(if any) is not a word character. -/
def boundaryBefore (prev : Option Char) : Bool :=
  match prev with
  | none => true
  | some c => !isWordChar c

/-- A `\b` boundary holds after a digit iff the following character
(if any) is not a word character. -/
def boundaryAfter (rest : List Char) : Bool :=
  match rest with
  | [] => true
  | c :: _ => !isWordChar c

/-- Match exactly `n` decimal digits, returning their value and the
remaining input. -/
def digitsN : Nat → Int → List Char → Option (Int × List Char)
  | 0, acc, cs => some (acc, cs)
  | n + 1, acc, c :: cs =>
    if c.isDigit then digitsN n (acc * 10 + dval c) cs else none
  | _ + 1, _, [] => none

/-- Match one `[\/\-.]` separator. -/
def sepP (cs : List Char) : Option (List Char) :=
  match cs with
  | c :: rest => if isDateSep c then some rest else none
  | [] => none

/-- Greedy `(\d{1,2})` with backtracking: the ordered list of ways the
group can match (two digits first, then one), each with the group
value, its width and the remaining input. -/
def grab12 (cs : List Char) : List (Int × Nat × List Char) :=
  match cs with
  | a :: b :: rest =>
    if a.isDigit && b.isDigit then
      [(dval a * 10 + dval b, 2, rest), (dval a, 1, b :: rest)]
    else if a.isDigit then [(dval a, 1, b :: rest)]
    else []
  | [a] => if a.isDigit then [(dval a, 1, ([] : List Char))] else []
  | [] => []

/-- First success of `f` over an ordered list of alternatives
(backtracking order of the regex engine). -/
def firstSome : List α → (α → Option β) → Option β
  | [], _ => none
  | a :: as, f =>
    match f a with
    | some b => some b
    | none => firstSome as f

/-- Try a matcher at every position from the left and return the first
success, threading the previous character for `\b` checks; this is the
leftmost-match rule of the JavaScript engine. -/
def scanFirst (f : Option Char → List Char → Option α) :
    Option Char → List Char → Option α
  | prev, [] => f prev []
  | prev, c :: cs =>
    match f prev (c :: cs) with
    | some r => some r
    | none => scanFirst f (some c) cs

/-- Case-insensitive literal match (the `/i` flag of the labeled
patterns), returning the rest of the input. -/
def stripCI : List Char → List Char → Option (List Char)
  | [], cs => some cs
  | p :: ps, c :: cs => if p.toUpper = c.toUpper then stripCI ps cs else none
  | _ :: _, [] => none

namespace DobExtractor

/-! ### `extractLabeledDob` — the three labeled patterns

`/(?:DOB|BIRTH|DATE\s*OF\s*BIRTH)\s*[:\-]?\s*(\d{4})[\/\-\.](\d{2})[\/\-\.](\d{2})/i`
and its two day-or-month-first twins.  The alternatives of the label
group are mutually exclusive from their second character on, and the
character classes of `\s*[:\-]?\s*` and `\d` are disjoint, so the
greedy, non-backtracking readings below coincide with the engine's
backtracking semantics. -/

/-- The `DATE\s*OF\s*BIRTH` label alternative. -/
def labelDateOfBirth (cs : List Char) : Option (List Char) :=
  match stripCI "DATE".toList cs with
  | none => none
  | some r1 =>
    match stripCI "OF".toList (r1.dropWhile isSpaceChar) with
    | none => none
    | some r2 => stripCI "BIRTH".toList (r2.dropWhile isSpaceChar)

/-- The label group `(?:DOB|BIRTH|DATE\s*OF\s*BIRTH)`, alternatives in
source order. -/
def labelFull (cs : List Char) : Option (List Char) :=
  match stripCI "DOB".toList cs with
  | some r => some r
  | none =>
    match stripCI "BIRTH".toList cs with
    | some r => some r
    | none => labelDateOfBirth cs

/-- The label group `(?:DOB|BIRTH)` of the third pattern. -/
def labelShort (cs : List Char) : Option (List Char) :=
  match stripCI "DOB".toList cs with
  | some r => some r
  | none => stripCI "BIRTH".toList cs

/-- The glue `\s*[:\-]?\s*` between label and date. -/
def afterLabel (cs : List Char) : List Char :=
  let cs1 := cs.dropWhile isSpaceChar
  match cs1 with
  | c :: rest => if c = ':' || c = '-' then rest.dropWhile isSpaceChar else cs1
  | [] => []

/-- The date tail `(\d{4})[\/\-\.](\d{2})[\/\-\.](\d{2})` (year first). -/
def tryDateYMD (cs : List Char) : Option (Int × Int × Int) := do
  let (y, r1) ← digitsN 4 0 cs
  let r2 ← sepP r1
  let (m, r3) ← digitsN 2 0 r2
  let r4 ← sepP r3
  let (d, _) ← digitsN 2 0 r4
  some (y, m, d)

/-- The date tail `(\d{2})[\/\-\.](\d{2})[\/\-\.](\d{4})` (year last);
returns the two ambiguous groups and the year. -/
def tryDateDMY (cs : List Char) : Option (Int × Int × Int) := do
  let (a, r1) ← digitsN 2 0 cs
  let r2 ← sepP r1
  let (b, r3) ← digitsN 2 0 r2
  let r4 ← sepP r3
  let (y, _) ← digitsN 4 0 r4
  some (a, b, y)

/-- Matcher for the first labeled pattern at one position. -/
def tryP1 (_prev : Option Char) (cs : List Char) : Option (Int × Int × Int) :=
  match labelFull cs with
  | some r => tryDateYMD (afterLabel r)
  | none => none

/-- Matcher for the second labeled pattern at one position. -/
def tryP2 (_prev : Option Char) (cs : List Char) : Option (Int × Int × Int) :=
  match labelFull cs with
  | some r => tryDateDMY (afterLabel r)
  | none => none

/-- Matcher for the third labeled pattern at one position. -/
def tryP3 (_prev : Option Char) (cs : List Char) : Option (Int × Int × Int) :=
  match labelShort cs with
  | some r => tryDateDMY (afterLabel r)
  | none => none

/-- The year-last branch shared by patterns two and three: try the
month-first reading, then the day-first one, validating each. -/
def mmddOrDdmm (a b y : Int) : Option String :=
  let iso1 := toIso y a b
  if isValidDate iso1 then some iso1
  else
    let iso2 := toIso y b a
    if isValidDate iso2 then some iso2 else none

/-- Third iteration of the pattern loop of `extractLabeledDob`. -/
def labeledStep3 (cs : List Char) : Option String :=
  match scanFirst tryP3 none cs with
  | some (a, b, y) => mmddOrDdmm a b y
  | none => none

/-- Second iteration of the pattern loop of `extractLabeledDob`. -/
def labeledStep2 (cs : List Char) : Option String :=
  match scanFirst tryP2 none cs with
  | some (a, b, y) =>
    match mmddOrDdmm a b y with
    | some s => some s
    | none => labeledStep3 cs
  | none => labeledStep3 cs

/-- `extractLabeledDob` of `dobExtractor.ts`: the first match of each
labeled pattern in turn; a match whose date fails validation falls
through to the next pattern, exactly as the source loop does. -/
def extractLabeledDob (cs : List Char) : Option String :=
  match scanFirst tryP1 none cs with
  | some (y, m, d) =>
    let iso := toIso y m d
    if isValidDate iso then some iso else labeledStep2 cs
  | none => labeledStep2 cs

/-! ### `extractBirthYearDate` — the birth-plausible-year fallback

`/\b(19[4-9]\d|200\d|2010)[\/\-\.](\d{2})[\/\-\.](\d{2})\b/g` and the
year-last twin; the source calls `exec` once per pattern, i.e. uses
only the first match of each.  The year alternation is exactly the
range 1940..2010 over four digits. -/

/-- Matcher for the year-first birth-year pattern at one position. -/
def tryQ1 (prev : Option Char) (cs : List Char) : Option (Int × Int × Int) :=
  if !boundaryBefore prev then none
  else do
    let (y, r1) ← digitsN 4 0 cs
    if 1940 ≤ y ∧ y ≤ 2010 then
      let r2 ← sepP r1
      let (m, r3) ← digitsN 2 0 r2
      let r4 ← sepP r3
      let (d, r5) ← digitsN 2 0 r4
      if boundaryAfter r5 then some (y, m, d) else none
    else none

/-- Matcher for the year-last birth-year pattern at one position. -/
def tryQ2 (prev : Option Char) (cs : List Char) : Option (Int × Int × Int) :=
  if !boundaryBefore prev then none
  else do
    let (a, r1) ← digitsN 2 0 cs
    let r2 ← sepP r1
    let (b, r3) ← digitsN 2 0 r2
    let r4 ← sepP r3
    let (y, r5) ← digitsN 4 0 r4
    if (1940 ≤ y ∧ y ≤ 2010) ∧ boundaryAfter r5 then some (a, b, y) else none

/-- Year-last half of `extractBirthYearDate`: month-first reading
first, then day-first, each validated and checked birth-plausible. -/
def birthYearStep2 (cs : List Char) (t : CivilDate) : Option String :=
  match scanFirst tryQ2 none cs with
  | some (a, b, y) =>
    let iso1 := toIso y a b
    if isValidDate iso1 && isBirthPlausible iso1 t then some iso1
    else
      let iso2 := toIso y b a
      if isValidDate iso2 && isBirthPlausible iso2 t then some iso2 else none
  | none => none

/-- `extractBirthYearDate` of `dobExtractor.ts`. -/
def extractBirthYearDate (cs : List Char) (t : CivilDate) : Option String :=
  match scanFirst tryQ1 none cs with
  | some (y, m, d) =>
    let iso := toIso y m d
    if isValidDate iso && isBirthPlausible iso t then some iso
    else birthYearStep2 cs t
  | none => birthYearStep2 cs t

/-- Result record of the server extractor (`rawMatch`, which no caller
reads, is omitted). -/
structure DobExtractionResult where
  birthDate : Option String
  age : Option Int
  isOver19 : Bool
deriving DecidableEq

/-- The birth-date candidate of `extractDobFromOcrText`: the labeled
extraction, falling back to the birth-year heuristic (the `bd` local
of the source). -/
def dobCandidate (cs : List Char) (t : CivilDate) : Option String :=
  match extractLabeledDob cs with
  | some s => some s
  | none => extractBirthYearDate cs t

/-- `extractDobFromOcrText` of `dobExtractor.ts`: labeled patterns
first, then the birth-year heuristic; on success the age and the
19-plus flag are computed from the extracted date. -/
def extractDobFromOcrText (ocrText : String) (t : CivilDate) : DobExtractionResult :=
  match dobCandidate ocrText.toList t with
  | some s =>
    let a := calculateAge s t
    { birthDate := some s, age := a,
      isOver19 := match a with | some n => decide (19 ≤ n) | none => false }
  | none => { birthDate := none, age := none, isOver19 := false }

end DobExtractor

namespace VerifyStart

/-- The JSON body of a `/api/verify/start` response, restricted to the
fields the fast path produces (`ocr_passed`, `age_passed`, optional
`age` and `birthDate`). -/
structure GateResponse where
  ocr_passed : Bool
  age_passed : Bool
  age : Option Int
  birthDate : Option String
deriving DecidableEq

/-- The client-DOB format test `/^\d{4}-\d{2}-\d{2}$/.test(birthDate)`. -/
def dobShapeOk (s : String) : Bool :=
  match s.toList with
  | [a, b, c, d, s1, e, f, s2, g, h] =>
    a.isDigit && b.isDigit && c.isDigit && d.isDigit && s1 = '-' &&
      e.isDigit && f.isDigit && s2 = '-' && g.isDigit && h.isDigit
  | _ => false

/-- The tail of the handler after `finalBirthDate` / `finalAge` are
fixed (route.ts lines 123-139 of the named copy): reject when the
birth date is falsy or the age is null, reject when under 19,
otherwise succeed with the final values. -/
def proceed (ocrPassed : Bool) (finalBirthDate : String) (finalAge : Option Int) :
    GateResponse :=
  if finalBirthDate = "" then ⟨ocrPassed, false, none, none⟩
  else
    match finalAge with
    | none => ⟨ocrPassed, false, none, none⟩
    | some a =>
      if a < 19 then ⟨true, false, some a, none⟩
      else ⟨true, true, some a, some finalBirthDate⟩

/-- The fast path of `POST /api/verify/start`: the request carried
`rawOcrText`, a `birthDate` string and a numeric `age` (the branch
condition `rawOcrText && birthDate && typeof age === "number"` holds).
The server re-extracts the DOB from the raw text; its result overrides
the client values; if it found nothing, the client values are trusted
exactly when the birth date has the `YYYY-MM-DD` shape and the claimed
age is at least 19; otherwise the request is rejected outright.
`faceMatchConfidence` is accepted and never read, as in the source. -/
def fastPath (rawOcrText birthDate : String) (age : Int) (t : CivilDate) :
    GateResponse :=
  let dob := DobExtractor.extractDobFromOcrText rawOcrText t
  let clientDobValid :=
    decide (birthDate ≠ "") && dobShapeOk birthDate && decide (19 ≤ age)
  match dob.birthDate with
  | some sbd => proceed true sbd dob.age
  | none =>
    if clientDobValid then proceed true birthDate (some age)
    else ⟨false, false, none, none⟩

end VerifyStart

namespace Ocr

/-! ### Client-side parsers of `lib/ocr.ts` -/

/-- One entry of the `dates` array built by `extractBirthDate`: the
normalized date string, its year, and the uppercased context window
`text.substring(max(0, index-30), index+15).toUpperCase()`. -/
structure Cand where
  date : String
  year : Int
  context : String
deriving DecidableEq

/-- Substring containment (`RegExp.test` of a literal alternation on
the already-uppercased context). -/
def containsSub (pat : List Char) : List Char → Bool
  | [] => pat.isEmpty
  | c :: tl => pat.isPrefixOf (c :: tl) || containsSub pat tl

/-- Containment of any of a list of literal labels. -/
def hasAnyLabel (ctx : String) (ls : List String) : Bool :=
  ls.any fun l => containsSub l.toList ctx.toList

/-- The context window of a match starting at `idx`. -/
def contextAt (full : List Char) (idx : Nat) : String :=
  let start := idx - 30
  ⟨((full.drop start).take (idx + 15 - start)).map Char.toUpper⟩

/-- Matcher for `/\b(19\d{2}|20[0-2]\d)[\/\-.](\d{1,2})[\/\-.](\d{1,2})\b/g`
at one position: the date string, the year, and the matched length. -/
def ymdMatcher (prev : Option Char) (cs : List Char) : Option (String × Int × Nat) :=
  if !boundaryBefore prev then none
  else
    match digitsN 4 0 cs with
    | none => none
    | some (y, r1) =>
      if (1900 ≤ y ∧ y ≤ 1999) ∨ (2000 ≤ y ∧ y ≤ 2029) then
        match sepP r1 with
        | none => none
        | some r2 =>
          firstSome (grab12 r2) fun md =>
            match sepP md.2.2 with
            | none => none
            | some r4 =>
              firstSome (grab12 r4) fun dd =>
                if boundaryAfter dd.2.2 then
                  some (toIso y md.1 dd.1, y, 4 + 1 + md.2.1 + 1 + dd.2.1)
                else none
      else none

/-- Matcher for `/\b(\d{1,2})[\/\-.](\d{1,2})[\/\-.](19\d{2}|20[0-2]\d)\b/g`
at one position; the first group is taken as the day and the second as
the month (`assume DD/MM for Canadian IDs`). -/
def dmyMatcher (prev : Option Char) (cs : List Char) : Option (String × Int × Nat) :=
  if !boundaryBefore prev then none
  else
    firstSome (grab12 cs) fun d1 =>
      match sepP d1.2.2 with
      | none => none
      | some r2 =>
        firstSome (grab12 r2) fun m2 =>
          match sepP m2.2.2 with
          | none => none
          | some r4 =>
            match digitsN 4 0 r4 with
            | none => none
            | some (y, r5) =>
              if ((1900 ≤ y ∧ y ≤ 1999) ∨ (2000 ≤ y ∧ y ≤ 2029)) ∧ boundaryAfter r5 then
                some (toIso y m2.1 d1.1, y, d1.2.1 + 1 + m2.2.1 + 1 + 4)
              else none

/-- Repeated `exec` with the `g` flag: collect every match from left
to right, resuming after the end of each match.  The fuel argument
only bounds the recursion; every step consumes at least one character,
so `length + 1` units never run out. -/
def scanAllGo (matcher : Option Char → List Char → Option (String × Int × Nat))
    (full : List Char) :
    Option Char → Nat → List Char → Nat → List Cand
  | _, _, _, 0 => []
  | prev, pos, cs, fuel + 1 =>
    match matcher prev cs with
    | some (ds, yr, len) =>
      { date := ds, year := yr, context := contextAt full pos } ::
        scanAllGo matcher full ((cs.take len).getLast?) (pos + len) (cs.drop len) fuel
    | none =>
      match cs with
      | [] => []
      | c :: cs2 => scanAllGo matcher full (some c) (pos + 1) cs2 fuel

/-- All matches of one pattern over the whole text. -/
def scanAllCands (matcher : Option Char → List Char → Option (String × Int × Nat))
    (full : List Char) : List Cand :=
  scanAllGo matcher full none 0 full (full.length + 1)

/-- The `dates` array of `extractBirthDate`: all year-first matches
followed by all year-last matches. -/
def datesOf (full : List Char) : List Cand :=
  scanAllCands ymdMatcher full ++ scanAllCands dmyMatcher full

/-- `/DOB|BIRTH|BORN|NAISSANCE/i.test(context)`. -/
def isDobLabeled (c : Cand) : Bool :=
  hasAnyLabel c.context ["DOB", "BIRTH", "BORN", "NAISSANCE"]

/-- `/ISS|EXP|DEL/i.test(context)`. -/
def hasIssExp (c : Cand) : Bool :=
  hasAnyLabel c.context ["ISS", "EXP", "DEL"]

/-- `/ISS|EXP|DEL|VALID/i.test(context)`. -/
def hasIssExpValid (c : Cand) : Bool :=
  hasAnyLabel c.context ["ISS", "EXP", "DEL", "VALID"]

/-- Priority 1 of `extractBirthDate`: a birth label in context, no
issue/expiry label, and a year at most `currentYear - 16`. -/
def priority1Pred (cy : Int) (c : Cand) : Bool :=
  isDobLabeled c && !hasIssExp c && decide (c.year ≤ cy - 16)

/-- Priority 2 of `extractBirthDate`: no issue/expiry/valid label and
a year at most `currentYear - 16`. -/
def priority2Pred (cy : Int) (c : Cand) : Bool :=
  !hasIssExpValid c && decide (c.year ≤ cy - 16)

/-- Priority 3: the first candidate of minimal year (the stable
ascending sort of the source followed by taking element 0). -/
def pickOldest : List Cand → Option Cand :=
  List.foldl
    (fun acc c =>
      match acc with
      | none => some c
      | some b => if c.year < b.year then some c else some b)
    none

/-- `extractBirthDate` of the first-generation `lib/ocr.ts`: collect
all dates with their context windows, then three priority passes.
No calendar validation is performed anywhere in this parser. -/
def extractBirthDate (text : String) (t : CivilDate) : Option String :=
  let cy := t.year
  let dates := datesOf text.toList
  match dates.find? (priority1Pred cy) with
  | some c => some c.date
  | none =>
    match dates.find? (priority2Pred cy) with
    | some c => some c.date
    | none =>
      (pickOldest (dates.filter fun c => decide (1920 ≤ c.year ∧ c.year ≤ cy - 16))).map
        (fun c => c.date)

/-- `parseOntarioDlNumber` of the Ontario-flow `lib/ocr.ts`: strip
everything but digits, require exactly 15 of them, regroup 5-5-5. -/
def parseOntarioDlNumber (raw : String) : Option String :=
  let digits := raw.toList.filter Char.isDigit
  if digits.length ≠ 15 then none
  else
    some (⟨digits.take 5⟩ ++ "-" ++ ⟨(digits.drop 5).take 5⟩ ++ "-" ++
      ⟨(digits.drop 10).take 5⟩)

end Ocr

/-! ## Policy evaluators (`lib/validation.ts`, both generations)

The repository carries two generations of `validateIDData`.  The
current one (the version whose `ValidationResult` has the
`isExpired` / `expiryDate` fields consumed by `app/verify/page.tsx`)
treats low OCR confidence as a warning and checks the expiry date; the
legacy one treats low confidence as a hard error and ignores expiry.
Error and warning entries are modelled by their stable `code` strings;
the human-readable messages carry no logic. -/

/-- The `IDData` aggregate consumed by both evaluators (fields the
evaluators read). -/
structure IDData where
  name : Option String
  idNumber : Option String
  birthYear : Option Int
  expiryDate : Option String
  confidence : ℚ
deriving DecidableEq

/-- JavaScript truthiness test `!x` for an optional string: absent or
empty counts as missing. -/
def optStrFalsy : Option String → Bool
  | none => true
  | some s => s = ""

/-- The shared birth-year cascade (`!birthYear` / `< 1900` /
`> currentYear - 19` / age from year subtraction): error codes, the
computed age, and the `isOver19` flag.  A birth year of `0` is falsy
in JavaScript and hits the missing-birth-year branch. -/
def birthEval : Option Int → Int → List String × Option Int × Bool
  | none, _ => (["NO_BIRTH_YEAR"], none, false)
  | some yb, cy =>
    if yb = 0 then (["NO_BIRTH_YEAR"], none, false)
    else if yb < 1900 then (["INVALID_BIRTH_YEAR"], none, false)
    else if yb > cy - 19 then (["UNDER_AGE"], none, false)
    else
      let a := cy - yb
      if 19 ≤ a then (([] : List String), some a, true)
      else (["UNDER_AGE"], some a, false)

/-- The expiry check of the current evaluator: `new Date(expiryDate)`
compared against today at day granularity; an unparsable date is
`NaN`-comparison-false, i.e. not expired; an absent (falsy) expiry
only warns. -/
def expiryEval : Option String → CivilDate → Bool × List String × List String
  | none, _ => (false, [], ["NO_EXPIRY_DATE"])
  | some e, t =>
    if e = "" then (false, [], ["NO_EXPIRY_DATE"])
    else
      match jsDateParse e with
      | some ce =>
        if civilLt ce t then (true, ["ID_EXPIRED"], []) else (false, [], [])
      | none => (false, [], [])

namespace Validation

/-- `calculateAge` of `lib/validation.ts`: plain year subtraction. -/
def calculateAge (birthYear : Int) (cy : Int) : Int := cy - birthYear

/-- The `ValidationResult` of the current evaluator. -/
structure ValidationResult where
  isValid : Bool
  age : Option Int
  isOver19 : Bool
  isExpired : Bool
  expiryDate : Option String
  errors : List String
  warnings : List String
deriving DecidableEq

/-- `validateIDData`, current generation: low confidence (< 20) is
only a warning, missing ID number is a warning, expiry in the past is
a hard error, and
`isValid = errors.length === 0 && isOver19 && !isExpired`. -/
def validateIDData (data : IDData) (t : CivilDate) : ValidationResult :=
  let confWarn : List String :=
    if data.confidence < 20 then ["LOW_CONFIDENCE"] else []
  let be := birthEval data.birthYear t.year
  let idWarn : List String :=
    if optStrFalsy data.idNumber then ["NO_ID_NUMBER"] else []
  let ee := expiryEval data.expiryDate t
  let errors := be.1 ++ ee.2.1
  { isValid := errors.isEmpty && be.2.2 && !ee.1
    age := be.2.1
    isOver19 := be.2.2
    isExpired := ee.1
    expiryDate := data.expiryDate
    errors := errors
    warnings := confWarn ++ idWarn ++ ee.2.2 }

end Validation

namespace ValidationLegacy

/-- The `ValidationResult` of the legacy evaluator (no expiry fields). -/
structure ValidationResult where
  isValid : Bool
  age : Option Int
  isOver19 : Bool
  errors : List String
  warnings : List String
deriving DecidableEq

/-- `validateIDData`, legacy generation: confidence below 40 is
pushed as a hard `LOW_CONFIDENCE` error, missing name and ID number
warn, expiry is never examined, and
`isValid = errors.length === 0 && confidence >= 40 && isOver19`. -/
def validateIDData (data : IDData) (t : CivilDate) : ValidationResult :=
  let confErr : List String :=
    if data.confidence < 40 then ["LOW_CONFIDENCE"] else []
  let be := birthEval data.birthYear t.year
  let nameWarn : List String :=
    if optStrFalsy data.name then ["NO_NAME"] else []
  let idWarn : List String :=
    if optStrFalsy data.idNumber then ["NO_ID_NUMBER"] else []
  let errors := confErr ++ be.1
  { isValid := errors.isEmpty && decide (40 ≤ data.confidence) && be.2.2
    age := be.2.1
    isOver19 := be.2.2
    errors := errors
    warnings := nameWarn ++ idWarn }

end ValidationLegacy

namespace Crop

/-- The four source-rectangle numbers and the two canvas dimensions
computed by `cropDataUrlRegionToPng`:
`sx = max(0, floor(x*W))`, `sy = max(0, floor(y*H))`,
`sw = min(W - sx, ceil(w*W))`, `sh = min(H - sy, ceil(h*H))`,
canvas `max(1, sw) × max(1, sh)`. -/
structure CropBounds where
  sx : Int
  sy : Int
  sw : Int
  sh : Int
  cw : Int
  ch : Int
deriving DecidableEq

/-- The pixel-bounds computation of `cropDataUrlRegionToPng` for a
normalized region `{x, y, w, h}` on a `W × H` image. -/
def cropBounds (x y w h : ℚ) (W H : ℕ) : CropBounds :=
  let sx := max 0 ⌊x * W⌋
  let sy := max 0 ⌊y * H⌋
  let sw := min ((W : Int) - sx) ⌈w * W⌉
  let sh := min ((H : Int) - sy) ⌈h * H⌉
  ⟨sx, sy, sw, sh, max 1 sw, max 1 sh⟩

/-- The source rectangle read by `drawImage` stays inside the `W × H`
pixel grid. -/
def boundsWithin (b : CropBounds) (W H : ℕ) : Prop :=
  0 ≤ b.sx ∧ 0 ≤ b.sy ∧ 0 ≤ b.sw ∧ 0 ≤ b.sh ∧
    b.sx + b.sw ≤ (W : Int) ∧ b.sy + b.sh ≤ (H : Int)

instance (b : CropBounds) (W H : ℕ) : Decidable (boundsWithin b W H) := by
  unfold boundsWithin; infer_instance

end Crop

/-! ## Helper lemmas -/

/-- The round-trip property of the spec: the candidate string parses
to a real date whose read-back year/month/day are exactly the textual
components. -/
def RoundTrip (s : String) : Prop :=
  ∃ y m d : Int, parseShape s = some (y, m, d) ∧ jsDateParse s = some ⟨y, m, d⟩

namespace DobExtractor

theorem isValidDate_iff_roundTrip (s : String) :
    isValidDate s = true ↔ RoundTrip s := by
  constructor
  · intro h
    unfold isValidDate at h
    rcases hp : parseShape s with _ | ⟨y, m, d⟩ <;> rw [hp] at h
    · simp at h
    · rcases hj : jsDateParse s with _ | c <;> rw [hj] at h
      · simp at h
      · have hc : c = ⟨y, m, d⟩ := of_decide_eq_true h
        exact ⟨y, m, d, hp, hc ▸ hj⟩
  · rintro ⟨y, m, d, hp, hj⟩
    unfold isValidDate
    rw [hp, hj]
    simp

theorem isValidDate_ne_empty {s : String} (h : isValidDate s = true) : s ≠ "" := by
  intro he
  subst he
  exact absurd h (by decide)

theorem isValidDate_jsDateParse {s : String} (h : isValidDate s = true) :
    ∃ c, jsDateParse s = some c := by
  obtain ⟨y, m, d, _, hj⟩ := (isValidDate_iff_roundTrip s).mp h
  exact ⟨⟨y, m, d⟩, hj⟩

theorem mmddOrDdmm_valid {a b y : Int} {s : String}
    (h : mmddOrDdmm a b y = some s) : isValidDate s = true := by
  unfold mmddOrDdmm at h
  dsimp only at h
  split_ifs at h with h1 h2
  · exact (Option.some.inj h) ▸ h1
  · exact (Option.some.inj h) ▸ h2

theorem labeledStep3_valid {cs : List Char} {s : String}
    (h : labeledStep3 cs = some s) : isValidDate s = true := by
  unfold labeledStep3 at h
  rcases hs : scanFirst tryP3 none cs with _ | ⟨a, b, y⟩ <;> rw [hs] at h <;>
    dsimp only at h
  · simp at h
  · exact mmddOrDdmm_valid h

theorem labeledStep2_valid {cs : List Char} {s : String}
    (h : labeledStep2 cs = some s) : isValidDate s = true := by
  unfold labeledStep2 at h
  rcases hs : scanFirst tryP2 none cs with _ | ⟨a, b, y⟩ <;> rw [hs] at h <;>
    dsimp only at h
  · exact labeledStep3_valid h
  · rcases hm : mmddOrDdmm a b y with _ | s2 <;> rw [hm] at h <;> dsimp only at h
    · exact labeledStep3_valid h
    · exact (Option.some.inj h) ▸ mmddOrDdmm_valid hm

theorem extractLabeledDob_valid {cs : List Char} {s : String}
    (h : extractLabeledDob cs = some s) : isValidDate s = true := by
  unfold extractLabeledDob at h
  rcases hs : scanFirst tryP1 none cs with _ | ⟨y, m, d⟩ <;> rw [hs] at h
  · exact labeledStep2_valid h
  · dsimp at h
    split_ifs at h with hv
    · exact (Option.some.inj h) ▸ hv
    · exact labeledStep2_valid h

theorem birthYearStep2_valid {cs : List Char} {t : CivilDate} {s : String}
    (h : birthYearStep2 cs t = some s) : isValidDate s = true := by
  unfold birthYearStep2 at h
  rcases hs : scanFirst tryQ2 none cs with _ | ⟨a, b, y⟩ <;> rw [hs] at h
  · simp at h
  · dsimp at h
    split_ifs at h with h1 h2
    · exact (Option.some.inj h) ▸ (Bool.and_eq_true_iff.mp h1).1
    · exact (Option.some.inj h) ▸ (Bool.and_eq_true_iff.mp h2).1

theorem extractBirthYearDate_valid {cs : List Char} {t : CivilDate} {s : String}
    (h : extractBirthYearDate cs t = some s) : isValidDate s = true := by
  unfold extractBirthYearDate at h
  rcases hs : scanFirst tryQ1 none cs with _ | ⟨y, m, d⟩ <;> rw [hs] at h
  · exact birthYearStep2_valid h
  · dsimp at h
    split_ifs at h with h1
    · exact (Option.some.inj h) ▸ (Bool.and_eq_true_iff.mp h1).1
    · exact birthYearStep2_valid h

theorem dobCandidate_valid {cs : List Char} {t : CivilDate} {s : String}
    (h : dobCandidate cs t = some s) : isValidDate s = true := by
  unfold dobCandidate at h
  rcases hs : extractLabeledDob cs with _ | s1 <;> rw [hs] at h
  · exact extractBirthYearDate_valid h
  · exact (Option.some.inj h) ▸ extractLabeledDob_valid hs

theorem extractDob_birthDate_eq (text : String) (t : CivilDate) :
    (extractDobFromOcrText text t).birthDate = dobCandidate text.toList t := by
  unfold extractDobFromOcrText
  rcases hs : dobCandidate text.toList t with _ | s <;> rfl

theorem extractDob_age_eq {text : String} {t : CivilDate} {s : String}
    (h : dobCandidate text.toList t = some s) :
    (extractDobFromOcrText text t).age = calculateAge s t := by
  unfold extractDobFromOcrText
  rw [h]

theorem extractDob_valid {text : String} {t : CivilDate} {s : String}
    (h : (extractDobFromOcrText text t).birthDate = some s) :
    isValidDate s = true := by
  rw [extractDob_birthDate_eq] at h
  exact dobCandidate_valid h

end DobExtractor

theorem dobShapeOk_ne_empty {bd : String} (h : VerifyStart.dobShapeOk bd = true) :
    bd ≠ "" := by
  intro he
  subst he
  exact absurd h (by decide)

/-! ## Claims -/

/-- C1: in the fast path of the server re-validation gate, whenever the
server's own `extractDobFromOcrText` run on the submitted raw text
yields a birth date, the response is computed from the server's
extraction (the returned `age` is the server age, a passing response
returns the server birth date) and the client-claimed `birthDate` and
`age` are ignored entirely (the response is invariant under changing
them); and whenever the server extraction yields nothing and the
client value is not a well-formed `YYYY-MM-DD` with claimed age at
least 19, the gate rejects with `ocr_passed = false` and
`age_passed = false`. -/
theorem c1_fast_path_server_revalidation
    (text bd : String) (age : Int) (t : CivilDate)
    (_htext : text ≠ "") (_hbd : bd ≠ "") :
    (∀ sbd : String, (DobExtractor.extractDobFromOcrText text t).birthDate = some sbd →
      (∀ (bd2 : String) (age2 : Int),
        VerifyStart.fastPath text bd age t = VerifyStart.fastPath text bd2 age2 t) ∧
      (VerifyStart.fastPath text bd age t).age =
        (DobExtractor.extractDobFromOcrText text t).age ∧
      ((VerifyStart.fastPath text bd age t).age_passed = true →
        (VerifyStart.fastPath text bd age t).birthDate = some sbd)) ∧
    ((DobExtractor.extractDobFromOcrText text t).birthDate = none →
      ¬(VerifyStart.dobShapeOk bd = true ∧ 19 ≤ age) →
      VerifyStart.fastPath text bd age t = ⟨false, false, none, none⟩) := by
  constructor
  · intro sbd h
    have hc : DobExtractor.dobCandidate text.toList t = some sbd := by
      rw [← DobExtractor.extractDob_birthDate_eq]
      exact h
    have hv := DobExtractor.dobCandidate_valid hc
    have hne := DobExtractor.isValidDate_ne_empty hv
    obtain ⟨cd, hj⟩ := DobExtractor.isValidDate_jsDateParse hv
    have hage : (DobExtractor.extractDobFromOcrText text t).age =
        some (DobExtractor.ageCivil cd t) := by
      rw [DobExtractor.extractDob_age_eq hc]
      unfold DobExtractor.calculateAge
      rw [hj]
      rfl
    refine ⟨?_, ?_, ?_⟩
    · intro bd2 age2
      simp only [VerifyStart.fastPath, h]
    · simp only [VerifyStart.fastPath, h]
      rw [hage]
      unfold VerifyStart.proceed
      rw [if_neg hne]
      dsimp only
      split_ifs <;> rfl
    · simp only [VerifyStart.fastPath, h]
      rw [hage]
      unfold VerifyStart.proceed
      rw [if_neg hne]
      dsimp only
      split_ifs
      · intro hp
        exact absurd hp (by decide)
      · intro _
        rfl
  · intro hnone hnc
    simp only [VerifyStart.fastPath, hnone]
    have hfalse :
        (decide (bd ≠ "") && VerifyStart.dobShapeOk bd && decide (19 ≤ age)) = false := by
      by_cases h1 : VerifyStart.dobShapeOk bd = true
      · by_cases h2 : 19 ≤ age
        · exact absurd ⟨h1, h2⟩ hnc
        · simp [h2]
      · have h1' : VerifyStart.dobShapeOk bd = false := by
          revert h1
          cases VerifyStart.dobShapeOk bd <;> simp
        simp [h1']
    rw [hfalse]
    rfl

/-- C1 witness: a concrete text with an extractable DOB makes the gate
ignore absurd client values, and a text with none plus a malformed
client date is rejected outright. -/
theorem c1_fast_path_server_revalidation_witness :
    VerifyStart.fastPath "DOB: 1990/05/14" "1777-01-01" 5 ⟨2026, 10, 11⟩ =
      VerifyStart.fastPath "DOB: 1990/05/14" "1999-01-01" 99 ⟨2026, 10, 11⟩ ∧
    VerifyStart.fastPath "NOTHING HERE" "bad" 42 ⟨2026, 10, 11⟩ =
      ⟨false, false, none, none⟩ :=
  ⟨((c1_fast_path_server_revalidation "DOB: 1990/05/14" "1777-01-01" 5 ⟨2026, 10, 11⟩
      (by decide) (by decide)).1 "1990-05-14" (by decide)).1 "1999-01-01" 99,
   (c1_fast_path_server_revalidation "NOTHING HERE" "bad" 42 ⟨2026, 10, 11⟩
      (by decide) (by decide)).2 (by decide) (by decide)⟩

/-- C2 counterexample: the server-side and client-side date-of-birth
parsers are not extensionally equal.  On the bare text `01/02/1990`
the server tries the month-first reading and returns `1990-01-02`
while the client assumes day-first and returns `1990-02-01`. -/
theorem c2_parsers_differ_counterexample :
    (DobExtractor.extractDobFromOcrText "01/02/1990" ⟨2026, 10, 11⟩).birthDate =
      some "1990-01-02" ∧
    Ocr.extractBirthDate "01/02/1990" ⟨2026, 10, 11⟩ = some "1990-02-01" ∧
    ("1990-01-02" : String) ≠ "1990-02-01" := by
  refine ⟨by decide, by decide, by decide⟩

/-- C2 amended: the two parsers implement similar but not identical
rule sets.  They agree on an explicitly labeled year-first date such
as `DOB: 1990/05/14` (both produce `1990-05-14`), but on an ambiguous
day/month-first date such as `01/02/1990` the server prefers the
month-first reading (`1990-01-02`) while the client assumes day-first
(`1990-02-01`). -/
theorem c2_parsers_similar_not_identical :
    (DobExtractor.extractDobFromOcrText "DOB: 1990/05/14" ⟨2026, 10, 11⟩).birthDate =
      some "1990-05-14" ∧
    Ocr.extractBirthDate "DOB: 1990/05/14" ⟨2026, 10, 11⟩ = some "1990-05-14" ∧
    (DobExtractor.extractDobFromOcrText "01/02/1990" ⟨2026, 10, 11⟩).birthDate =
      some "1990-01-02" ∧
    Ocr.extractBirthDate "01/02/1990" ⟨2026, 10, 11⟩ = some "1990-02-01" := by
  refine ⟨by decide, by decide, by decide, by decide⟩

/-- C3: when the server-side extraction of the submitted raw text
fails, the fast path passes exactly when the client-supplied birth
date string has the `\d{4}-\d{2}-\d{2}` shape and the separately
supplied integer age is at least 19; the age implied by the birth-date
string is never recomputed, so a birth date implying age 16 passes
when the age field claims 25. -/
theorem c3_client_trust_fallback
    (text bd : String) (age : Int) (t : CivilDate)
    (hnone : (DobExtractor.extractDobFromOcrText text t).birthDate = none) :
    ((VerifyStart.fastPath text bd age t).age_passed = true ↔
      (VerifyStart.dobShapeOk bd = true ∧ 19 ≤ age)) ∧
    (VerifyStart.fastPath "HELLO WORLD" "2010-01-01" 25 ⟨2026, 10, 11⟩).age_passed =
      true ∧
    DobExtractor.calculateAge "2010-01-01" ⟨2026, 10, 11⟩ = some 16 := by
  refine ⟨?_, by decide, by decide⟩
  simp only [VerifyStart.fastPath, hnone]
  by_cases h1 : VerifyStart.dobShapeOk bd = true
  · have hbne : bd ≠ "" := dobShapeOk_ne_empty h1
    by_cases h2 : 19 ≤ age
    · have hlt : ¬(age < 19) := by omega
      simp [h1, h2, hbne, VerifyStart.proceed, hlt]
    · simp [h1, h2]
  · have h1' : VerifyStart.dobShapeOk bd = false := by
      revert h1
      cases VerifyStart.dobShapeOk bd <;> simp
    simp [h1']

/-- C3 witness: concrete instance of the fallback biconditional. -/
theorem c3_client_trust_fallback_witness :
    (VerifyStart.fastPath "HELLO WORLD" "2010-01-01" 25 ⟨2026, 10, 11⟩).age_passed =
      true ↔
    (VerifyStart.dobShapeOk "2010-01-01" = true ∧ (19 : Int) ≤ 25) :=
  (c3_client_trust_fallback "HELLO WORLD" "2010-01-01" 25 ⟨2026, 10, 11⟩
    (by decide)).1

/-- C4 counterexample: the claim is not true of every candidate "the
date-of-birth extraction" returns — the client-side `extractBirthDate`
performs no round-trip validation and accepts the rolled-over date
`1990-02-31` (which `new Date` shifts to March 3, failing the
read-back check). -/
theorem c4_roundtrip_counterexample :
    Ocr.extractBirthDate "DOB 1990-02-31" ⟨2026, 10, 11⟩ = some "1990-02-31" ∧
    DobExtractor.isValidDate "1990-02-31" = false ∧
    parseShape "1990-02-31" = some (1990, 2, 31) ∧
    jsDateParse "1990-02-31" = some ⟨1990, 3, 3⟩ := by
  refine ⟨by decide, by decide, by decide, by decide⟩

/-- C4 amended: every candidate returned by the server-side extraction
(`extractDobFromOcrText`) satisfies the round-trip — it has been
screened by `isValidDate`, which accepts a string exactly when
reconstructing a date from it and reading year/month/day back yields
the inputs — and rolled-over candidates such as `2024-02-30` are
rejected by that validation; the client-side `extractBirthDate` does
not apply this validation. -/
theorem c4_server_roundtrip_validation :
    (∀ (text : String) (t : CivilDate) (s : String),
      (DobExtractor.extractDobFromOcrText text t).birthDate = some s →
        DobExtractor.isValidDate s = true ∧ RoundTrip s) ∧
    (∀ s : String, DobExtractor.isValidDate s = true ↔ RoundTrip s) ∧
    DobExtractor.isValidDate "2024-02-30" = false := by
  refine ⟨?_, DobExtractor.isValidDate_iff_roundTrip, by decide⟩
  intro text t s h
  have hv := DobExtractor.extractDob_valid h
  exact ⟨hv, (DobExtractor.isValidDate_iff_roundTrip s).mp hv⟩

/-- C4 witness: concrete run of the server extraction whose output
satisfies the round-trip. -/
theorem c4_server_roundtrip_validation_witness :
    DobExtractor.isValidDate "1990-05-14" = true ∧ RoundTrip "1990-05-14" :=
  (c4_server_roundtrip_validation).1 "DOB: 1990/05/14" ⟨2026, 10, 11⟩ "1990-05-14"
    (by decide)

/-- The first candidate of the `dates` array of `extractBirthDate`
whose context window carries a birth label with no exclusion label and
whose year is birth-plausible (`≤ currentYear - 16`). -/
def firstLabeledCand (text : String) (t : CivilDate) : Option Ocr.Cand :=
  (Ocr.datesOf text.toList).find? (Ocr.priority1Pred t.year)

/-- C5: whenever the candidate list of the client date-of-birth parser
contains a date whose context window holds a DOB/BIRTH label, no
ISS/EXP/DEL exclusion label, and a birth-plausible year — `c` being
the first such candidate — the parser returns exactly that labeled
date, in preference to every other date in the text; in particular
`DOB: 1990/05/14` parses to `1990-05-14` and a text whose only
date-like content is `EXP 2020-01-01` yields no birth date. -/
theorem c5_labeled_date_priority :
    (∀ (text : String) (t : CivilDate) (c : Ocr.Cand),
      firstLabeledCand text t = some c →
        Ocr.extractBirthDate text t = some c.date) ∧
    Ocr.extractBirthDate "DOB: 1990/05/14" ⟨2024, 6, 1⟩ = some "1990-05-14" ∧
    Ocr.extractBirthDate "EXP 2020-01-01" ⟨2024, 6, 1⟩ = none := by
  refine ⟨?_, by decide, by decide⟩
  intro text t c h
  unfold firstLabeledCand at h
  simp only [Ocr.extractBirthDate, h]

/-- C5 witness: the labeled candidate of `DOB: 1990/05/14` is found
and returned. -/
theorem c5_labeled_date_priority_witness :
    Ocr.extractBirthDate "DOB: 1990/05/14" ⟨2024, 6, 1⟩ =
      some (Ocr.Cand.mk "1990-05-14" 1990 "DOB: 1990/05/14").date :=
  (c5_labeled_date_priority).1 "DOB: 1990/05/14" ⟨2024, 6, 1⟩
    ⟨"1990-05-14", 1990, "DOB: 1990/05/14"⟩ (by decide)

/-- C6: the Ontario ID-number parser strips all non-digit characters,
returns `null` exactly when the remaining digit count differs from 15,
and otherwise regroups the digits 5-5-5 with hyphens; in particular
`A12345-67890-54321` normalizes to `12345-67890-54321` and a 14-digit
input is rejected. -/
theorem c6_id_number_normalization (raw : String) :
    (Ocr.parseOntarioDlNumber raw = none ↔
      (raw.toList.filter Char.isDigit).length ≠ 15) ∧
    ((raw.toList.filter Char.isDigit).length = 15 →
      Ocr.parseOntarioDlNumber raw =
        some (⟨(raw.toList.filter Char.isDigit).take 5⟩ ++ "-" ++
          ⟨((raw.toList.filter Char.isDigit).drop 5).take 5⟩ ++ "-" ++
          ⟨((raw.toList.filter Char.isDigit).drop 10).take 5⟩)) ∧
    Ocr.parseOntarioDlNumber "A12345-67890-54321" = some "12345-67890-54321" ∧
    Ocr.parseOntarioDlNumber "12345678901234" = none := by
  refine ⟨?_, ?_, by decide, by decide⟩
  · simp only [Ocr.parseOntarioDlNumber]
    split_ifs with h <;> simp_all [String.toList]
  · intro h
    simp only [Ocr.parseOntarioDlNumber]
    rw [if_neg (by omega)]

/-- C6 witness: the digit-count dichotomy at concrete inputs. -/
theorem c6_id_number_normalization_witness :
    Ocr.parseOntarioDlNumber "A12345-67890-54321" =
      some (⟨("A12345-67890-54321".toList.filter Char.isDigit).take 5⟩ ++ "-" ++
        ⟨(("A12345-67890-54321".toList.filter Char.isDigit).drop 5).take 5⟩ ++ "-" ++
        ⟨(("A12345-67890-54321".toList.filter Char.isDigit).drop 10).take 5⟩) :=
  (c6_id_number_normalization "A12345-67890-54321").2.1 (by decide)

/-- C7 counterexample: age is not always computed from the full
calendar birth date — the policy evaluator's `calculateAge` subtracts
years only, so birth year 2006 evaluated in 2024 yields 18, while the
server's full-date computation for 2006-06-01 evaluated on 2024-05-31
yields 17. -/
theorem c7_year_subtraction_counterexample :
    Validation.calculateAge 2006 2024 = 18 ∧
    DobExtractor.calculateAge "2006-06-01" ⟨2024, 5, 31⟩ = some 17 ∧
    (18 : Int) ≠ 17 := by
  refine ⟨rfl, by decide, by decide⟩

/-- C7 amended: the server-side extractor's age computation does use
the full calendar date: it is non-decreasing as the evaluation date
advances, increases by exactly one across each birth anniversary, and
gives 17 for birth date 2006-06-01 evaluated on 2024-05-31.  (The
client policy evaluator's `calculateAge`, by contrast, subtracts years
only.) -/
theorem c7_age_from_full_date (b t1 t2 : CivilDate) :
    (civilLe t1 t2 = true → DobExtractor.ageCivil b t1 ≤ DobExtractor.ageCivil b t2) ∧
    (∀ y : Int,
      DobExtractor.ageCivil b (prevDate ⟨y, b.month, b.day⟩) + 1 =
        DobExtractor.ageCivil b ⟨y, b.month, b.day⟩) ∧
    DobExtractor.calculateAge "2006-06-01" ⟨2024, 5, 31⟩ = some 17 := by
  refine ⟨?_, ?_, by decide⟩
  · intro h
    simp only [civilLe, decide_eq_true_eq] at h
    unfold DobExtractor.ageCivil
    split_ifs <;> omega
  · intro y
    obtain ⟨yb, mb, db⟩ := b
    simp only [prevDate, DobExtractor.ageCivil]
    split_ifs <;> simp_all <;> omega

/-- C7 witness: monotonicity and the anniversary step at concrete
dates. -/
theorem c7_age_from_full_date_witness :
    DobExtractor.ageCivil ⟨2006, 6, 1⟩ ⟨2024, 5, 31⟩ ≤
      DobExtractor.ageCivil ⟨2006, 6, 1⟩ ⟨2024, 6, 1⟩ ∧
    DobExtractor.ageCivil ⟨2006, 6, 1⟩ (prevDate ⟨2024, 6, 1⟩) + 1 =
      DobExtractor.ageCivil ⟨2006, 6, 1⟩ ⟨2024, 6, 1⟩ :=
  ⟨(c7_age_from_full_date ⟨2006, 6, 1⟩ ⟨2024, 5, 31⟩ ⟨2024, 6, 1⟩).1 (by decide),
   (c7_age_from_full_date ⟨2006, 6, 1⟩ ⟨2024, 5, 31⟩ ⟨2024, 6, 1⟩).2.1 2024⟩

theorem lowconf_not_in_birthEval (yb : Option Int) (cy : Int) :
    "LOW_CONFIDENCE" ∉ (birthEval yb cy).1 := by
  rcases yb with _ | n
  · simp [birthEval]
  · simp only [birthEval]
    split_ifs <;> simp

theorem lowconf_not_in_expiryEval (e? : Option String) (t : CivilDate) :
    "LOW_CONFIDENCE" ∉ (expiryEval e? t).2.1 := by
  rcases e? with _ | e
  · simp [expiryEval]
  · simp only [expiryEval]
    split_ifs with h1
    · simp
    · rcases hj : jsDateParse e with _ | ce <;> simp only [hj]
      · simp
      · split_ifs <;> simp

/-- C8 counterexample: in the legacy policy evaluator, low OCR
confidence alone (here 10, with every other field fine) is pushed as a
hard `LOW_CONFIDENCE` error and blocks validity. -/
theorem c8_low_confidence_counterexample :
    "LOW_CONFIDENCE" ∈
      (ValidationLegacy.validateIDData
        ⟨some "JOHN DOE", some "12345-67890-54321", some 1990, none, 10⟩
        ⟨2026, 10, 11⟩).errors ∧
    (ValidationLegacy.validateIDData
        ⟨some "JOHN DOE", some "12345-67890-54321", some 1990, none, 10⟩
        ⟨2026, 10, 11⟩).isValid = false := by
  refine ⟨by decide, by decide⟩

/-- C8 amended: in the current policy evaluator (the expiry-aware
`validateIDData`), OCR confidence below its threshold (20) records
only a `LOW_CONFIDENCE` warning, `LOW_CONFIDENCE` never appears in the
errors list, and neither the errors list nor `isValid` depends on the
confidence at all; the legacy evaluator instead pushes confidence
below 40 as a hard error. -/
theorem c8_low_confidence_warning_only (d : IDData) (t : CivilDate) :
    (d.confidence < 20 →
      "LOW_CONFIDENCE" ∈ (Validation.validateIDData d t).warnings) ∧
    "LOW_CONFIDENCE" ∉ (Validation.validateIDData d t).errors ∧
    (∀ c : ℚ,
      (Validation.validateIDData { d with confidence := c } t).errors =
        (Validation.validateIDData d t).errors ∧
      (Validation.validateIDData { d with confidence := c } t).isValid =
        (Validation.validateIDData d t).isValid) := by
  refine ⟨?_, ?_, fun c => ⟨rfl, rfl⟩⟩
  · intro h
    simp [Validation.validateIDData, h]
  · simp only [Validation.validateIDData]
    intro hmem
    rw [List.mem_append] at hmem
    rcases hmem with hm | hm
    · exact lowconf_not_in_birthEval _ _ hm
    · exact lowconf_not_in_expiryEval _ _ hm

/-- C8 witness: a concrete low-confidence input warns without
erroring. -/
theorem c8_low_confidence_warning_only_witness :
    "LOW_CONFIDENCE" ∈
      (Validation.validateIDData
        ⟨some "JOHN DOE", some "12345-67890-54321", some 1990, none, 10⟩
        ⟨2026, 10, 11⟩).warnings :=
  (c8_low_confidence_warning_only
    ⟨some "JOHN DOE", some "12345-67890-54321", some 1990, none, 10⟩
    ⟨2026, 10, 11⟩).1 (by norm_num)

theorem birthEval_over19 (yb : Option Int) (cy : Int)
    (h : (birthEval yb cy).2.2 = true) :
    ∃ a, (birthEval yb cy).2.1 = some a ∧ 19 ≤ a := by
  rcases yb with _ | n
  · simp [birthEval] at h
  · simp only [birthEval] at h ⊢
    split_ifs at h ⊢ with h1 h2 h3 h4
    exact ⟨cy - n, rfl, h4⟩

theorem expiryEval_not_expired (e? : Option String) (t : CivilDate)
    (h : (expiryEval e? t).1 = false) :
    ∀ (e : String) (ce : CivilDate), e? = some e →
      jsDateParse e = some ce → civilLt ce t = false := by
  intro e ce he hj
  subst he
  by_cases h1 : e = ""
  · subst h1
    exact Option.noConfusion (show (none : Option CivilDate) = some ce from hj)
  · simp only [expiryEval, if_neg h1, hj] at h
    by_cases h2 : civilLt ce t = true
    · rw [if_pos h2] at h
      exact absurd h (by simp)
    · revert h2
      cases civilLt ce t <;> simp

/-- C9 counterexample: the legacy policy evaluator never examines the
expiry date, so an input with an expired card (expiry 2020-01-01, in
the past on 2026-10-11) and otherwise perfect fields yields
`isValid = true`, violating the claimed invariant. -/
theorem c9_policy_gating_counterexample :
    (ValidationLegacy.validateIDData
        ⟨some "JOHN DOE", some "12345-67890-54321", some 1990, some "2020-01-01", 80⟩
        ⟨2026, 10, 11⟩).isValid = true ∧
    (ValidationLegacy.validateIDData
        ⟨some "JOHN DOE", some "12345-67890-54321", some 1990, some "2020-01-01", 80⟩
        ⟨2026, 10, 11⟩).errors = [] ∧
    jsDateParse "2020-01-01" = some ⟨2020, 1, 1⟩ ∧
    civilLt ⟨2020, 1, 1⟩ ⟨2026, 10, 11⟩ = true := by
  refine ⟨by decide, by decide, by decide, by decide⟩

/-- C9 amended: for the current (expiry-aware) policy evaluator,
`isValid` is false whenever the errors list is non-empty (whatever the
warnings), and `isValid = true` forces an empty errors list, a
computed age of at least 19, and — when an expiry date was found and
parses — that it is not in the past; the legacy evaluator satisfies
the error-gating clause but ignores expiry entirely. -/
theorem c9_policy_gating (d : IDData) (t : CivilDate) :
    ((Validation.validateIDData d t).errors ≠ [] →
      (Validation.validateIDData d t).isValid = false) ∧
    ((Validation.validateIDData d t).isValid = true →
      (Validation.validateIDData d t).errors = [] ∧
      (∃ a, (Validation.validateIDData d t).age = some a ∧ 19 ≤ a) ∧
      (∀ (e : String) (ce : CivilDate), d.expiryDate = some e →
        jsDateParse e = some ce → civilLt ce t = false)) := by
  constructor
  · intro h
    simp only [Validation.validateIDData] at h ⊢
    have hemp :
        ((birthEval d.birthYear t.year).1 ++ (expiryEval d.expiryDate t).2.1).isEmpty
          = false := by
      rw [← Bool.not_eq_true, List.isEmpty_iff]
      exact h
    rw [hemp]
    simp
  · intro h
    simp only [Validation.validateIDData] at h ⊢
    rw [Bool.and_eq_true, Bool.and_eq_true] at h
    obtain ⟨⟨hemp, hover⟩, hexp⟩ := h
    refine ⟨List.isEmpty_iff.mp hemp, birthEval_over19 _ _ hover, ?_⟩
    apply expiryEval_not_expired
    revert hexp
    cases (expiryEval d.expiryDate t).1 <;> simp

/-- C9 witness: concrete instances of both directions of the gating
invariant. -/
theorem c9_policy_gating_witness :
    (Validation.validateIDData
        ⟨some "JOHN DOE", some "12345-67890-54321", none, none, 80⟩
        ⟨2026, 10, 11⟩).isValid = false ∧
    ((Validation.validateIDData
        ⟨some "JOHN DOE", some "12345-67890-54321", some 1990, none, 80⟩
        ⟨2026, 10, 11⟩).errors = [] ∧
      (∃ a, (Validation.validateIDData
        ⟨some "JOHN DOE", some "12345-67890-54321", some 1990, none, 80⟩
        ⟨2026, 10, 11⟩).age = some a ∧ 19 ≤ a)) :=
  ⟨(c9_policy_gating
      ⟨some "JOHN DOE", some "12345-67890-54321", none, none, 80⟩
      ⟨2026, 10, 11⟩).1 (by decide),
   ((c9_policy_gating
      ⟨some "JOHN DOE", some "12345-67890-54321", some 1990, none, 80⟩
      ⟨2026, 10, 11⟩).2 (by decide)).1,
   ((c9_policy_gating
      ⟨some "JOHN DOE", some "12345-67890-54321", some 1990, none, 80⟩
      ⟨2026, 10, 11⟩).2 (by decide)).2.1⟩

/-- C10 counterexample: with region components inside the claimed
`[-1, 2]` range, the computed crop rectangle is not clamped within the
image after all — `x = 2` on a 100-pixel-wide image gives a source
`sx` of 200, outside the image, and `w = -1` gives a negative source
width of `-100`. -/
theorem c10_crop_bounds_counterexample :
    (Crop.cropBounds 2 0 1 1 100 100).sx = 200 ∧
    ¬ Crop.boundsWithin (Crop.cropBounds 2 0 1 1 100 100) 100 100 ∧
    (Crop.cropBounds 0 0 (-1) 1 100 100).sw = -100 := by
  have hb : Crop.cropBounds 2 0 1 1 100 100 = ⟨200, 0, -100, 100, 1, 100⟩ := by
    unfold Crop.cropBounds
    norm_num
  have hcm : ⌈(-100 : ℚ)⌉ = -100 := by
    rw [show (-100 : ℚ) = ((-100 : Int) : ℚ) by norm_num]
    exact Int.ceil_intCast _
  have hb2 : Crop.cropBounds 0 0 (-1) 1 100 100 = ⟨0, 0, -100, 100, 1, 100⟩ := by
    unfold Crop.cropBounds
    norm_num [hcm]
  refine ⟨by rw [hb], ?_, by rw [hb2]⟩
  rw [hb]
  norm_num [Crop.boundsWithin]

/-- C10 amended: for every image and every normalized region with
`x, y ∈ [-1, 1]` and non-negative `w, h ≤ 2`, the source rectangle
computed by the cropper stays within the image's pixel bounds and the
produced canvas is at least 1×1; components up to 2 for `x`/`y` or
negative widths (still inside the claim's `[-1, 2]` range) can place
the source rectangle outside the image, as the counterexample shows. -/
theorem c10_crop_bounds_clamped (x y w h : ℚ) (W H : ℕ)
    (_hx0 : -1 ≤ x) (hx1 : x ≤ 1) (_hy0 : -1 ≤ y) (hy1 : y ≤ 1)
    (hw0 : 0 ≤ w) (_hw2 : w ≤ 2) (hh0 : 0 ≤ h) (_hh2 : h ≤ 2) :
    Crop.boundsWithin (Crop.cropBounds x y w h W H) W H ∧
    1 ≤ (Crop.cropBounds x y w h W H).cw ∧
    1 ≤ (Crop.cropBounds x y w h W H).ch := by
  have hfx : ⌊x * (W : ℚ)⌋ ≤ (W : Int) := by
    have hle : x * (W : ℚ) ≤ ((W : ℕ) : ℚ) := by
      calc x * (W : ℚ) ≤ 1 * (W : ℚ) :=
            mul_le_mul_of_nonneg_right hx1 (by positivity)
        _ = ((W : ℕ) : ℚ) := one_mul _
    calc ⌊x * (W : ℚ)⌋ ≤ ⌊((W : ℕ) : ℚ)⌋ := Int.floor_le_floor hle
      _ = ((W : ℕ) : Int) := Int.floor_natCast _
  have hfy : ⌊y * (H : ℚ)⌋ ≤ (H : Int) := by
    have hle : y * (H : ℚ) ≤ ((H : ℕ) : ℚ) := by
      calc y * (H : ℚ) ≤ 1 * (H : ℚ) :=
            mul_le_mul_of_nonneg_right hy1 (by positivity)
        _ = ((H : ℕ) : ℚ) := one_mul _
    calc ⌊y * (H : ℚ)⌋ ≤ ⌊((H : ℕ) : ℚ)⌋ := Int.floor_le_floor hle
      _ = ((H : ℕ) : Int) := Int.floor_natCast _
  have hcw : 0 ≤ ⌈w * (W : ℚ)⌉ := Int.ceil_nonneg (by positivity)
  have hch : 0 ≤ ⌈h * (H : ℚ)⌉ := Int.ceil_nonneg (by positivity)
  have hWnn : (0 : Int) ≤ (W : Int) := Int.natCast_nonneg W
  have hHnn : (0 : Int) ≤ (H : Int) := Int.natCast_nonneg H
  unfold Crop.cropBounds Crop.boundsWithin
  dsimp only
  refine ⟨⟨le_max_left _ _, le_max_left _ _, ?_, ?_, ?_, ?_⟩,
    le_max_left _ _, le_max_left _ _⟩
  · exact le_min (by omega) hcw
  · exact le_min (by omega) hch
  · have := min_le_left ((W : Int) - max 0 ⌊x * (W : ℚ)⌋) ⌈w * (W : ℚ)⌉
    omega
  · have := min_le_left ((H : Int) - max 0 ⌊y * (H : ℚ)⌋) ⌈h * (H : ℚ)⌉
    omega

/-- C10 witness: a concrete in-range region on a concrete image. -/
theorem c10_crop_bounds_clamped_witness :
    Crop.boundsWithin (Crop.cropBounds (1/2) 0 1 1 100 50) 100 50 ∧
    1 ≤ (Crop.cropBounds (1/2) 0 1 1 100 50).cw ∧
    1 ≤ (Crop.cropBounds (1/2) 0 1 1 100 50).ch :=
  c10_crop_bounds_clamped (1/2) 0 1 1 100 50 (by norm_num) (by norm_num)
    (by norm_num) (by norm_num) (by norm_num) (by norm_num) (by norm_num)
    (by norm_num)
